import Mathlib

/-!
Verification development for the skinview3d model/texture core
(`src/model.ts`, the unnamed skin-processing module, and the
`PlayerObject` composition layer).

The TypeScript sources are shallowly embedded below. Pixel and UV
coordinates are modelled as rationals (`ℚ`); the JavaScript numeric
operations appearing in the relevant code paths are exact (sums,
differences, products and divisions by 64/16), so `ℚ` is a faithful
carrier for them. Pixel buffers are modelled as total functions
`ℕ → ℕ → ℕ` from coordinates to a packed pixel value (for the legacy
upgrader, which moves whole pixels) or to the alpha channel value
(for the slim detector, which only inspects alpha).
-/

/-- A 2-component vector, as three.js `Vector2`, over `ℚ`. -/
structure Vec2 where
  x : ℚ
  y : ℚ
deriving DecidableEq, Repr

instance : Inhabited Vec2 := ⟨⟨0, 0⟩⟩

/-- A 3-component vector, as three.js `Vector3`, over `ℚ`. -/
structure Vec3 where
  x : ℚ
  y : ℚ
  z : ℚ
deriving DecidableEq, Repr

/-- `toFaceVertices` from `setUVs` (src/model.ts): the four UV vertices of
the axis-aligned pixel rectangle `[x1,x2] × [y1,y2]`, normalized by the
texture size and with the v axis flipped. -/
def toFaceVertices (tw th x1 y1 x2 y2 : ℚ) : List Vec2 :=
  [⟨x1 / tw, 1 - y2 / th⟩,
   ⟨x2 / tw, 1 - y2 / th⟩,
   ⟨x2 / tw, 1 - y1 / th⟩,
   ⟨x1 / tw, 1 - y1 / th⟩]

/-- The `top` face rectangle of `setUVs`. -/
def topFace (u v w h d tw th : ℚ) : List Vec2 :=
  toFaceVertices tw th (u + d) v (u + w + d) (v + d)

/-- The `bottom` face rectangle of `setUVs`. -/
def bottomFace (u v w h d tw th : ℚ) : List Vec2 :=
  toFaceVertices tw th (u + w + d) v (u + w * 2 + d) (v + d)

/-- The `left` face rectangle of `setUVs`. -/
def leftFace (u v w h d tw th : ℚ) : List Vec2 :=
  toFaceVertices tw th u (v + d) (u + d) (v + d + h)

/-- The `front` face rectangle of `setUVs`. -/
def frontFace (u v w h d tw th : ℚ) : List Vec2 :=
  toFaceVertices tw th (u + d) (v + d) (u + w + d) (v + d + h)

/-- The `right` face rectangle of `setUVs`. -/
def rightFace (u v w h d tw th : ℚ) : List Vec2 :=
  toFaceVertices tw th (u + w + d) (v + d) (u + w + d * 2) (v + h + d)

/-- The `back` face rectangle of `setUVs`. -/
def backFace (u v w h d tw th : ℚ) : List Vec2 :=
  toFaceVertices tw th (u + w + d * 2) (v + d) (u + w * 2 + d * 2) (v + h + d)

/-- The six face quadrilaterals computed by `setUVs`, in source order
top, bottom, left, front, right, back. -/
def setUVsFaces (u v w h d tw th : ℚ) : List (List Vec2) :=
  [topFace u v w h d tw th, bottomFace u v w h d tw th,
   leftFace u v w h d tw th, frontFace u v w h d tw th,
   rightFace u v w h d tw th, backFace u v w h d tw th]

/-- Vertex of a face array, with the three.js `Vector2` zero as junk
default (all faces built here have exactly 4 vertices). -/
def vtx (l : List Vec2) (i : ℕ) : Vec2 :=
  l.getD i ⟨0, 0⟩

/-- The 24-entry UV buffer written by `setUVs` via `copyVector2sArray`,
in the source's scrambled per-face vertex order. -/
def setUVsList (u v w h d tw th : ℚ) : List Vec2 :=
  let top := topFace u v w h d tw th
  let bottom := bottomFace u v w h d tw th
  let left := leftFace u v w h d tw th
  let front := frontFace u v w h d tw th
  let right := rightFace u v w h d tw th
  let back := backFace u v w h d tw th
  [vtx right 3, vtx right 2, vtx right 0, vtx right 1,
   vtx left 3, vtx left 2, vtx left 0, vtx left 1,
   vtx top 3, vtx top 2, vtx top 0, vtx top 1,
   vtx bottom 0, vtx bottom 1, vtx bottom 3, vtx bottom 2,
   vtx front 3, vtx front 2, vtx front 0, vtx front 1,
   vtx back 3, vtx back 2, vtx back 0, vtx back 1]

/-- `setSkinUVs` (src/model.ts): `setUVs` at the skin convention 64×64. -/
def setSkinUVsList (u v w h d : ℚ) : List Vec2 :=
  setUVsList u v w h d 64 64

/-- Map a normalized UV vertex back to pixel space of the 64×64 skin
atlas: multiply u by 64 and undo the v flip. -/
def pixOf (p : Vec2) : Vec2 :=
  ⟨64 * p.x, 64 * (1 - p.y)⟩

/-- An axis-aligned pixel rectangle `[x1,x2] × [y1,y2]`. -/
structure Rect where
  x1 : ℚ
  y1 : ℚ
  x2 : ℚ
  y2 : ℚ
deriving DecidableEq, Repr

/-- Bounding rectangle of a 4-vertex face in pixel space. -/
def rectOfFace (l : List Vec2) : Rect :=
  match l with
  | [a, b, c, e] =>
    ⟨min (min a.x b.x) (min c.x e.x), min (min a.y b.y) (min c.y e.y),
     max (max a.x b.x) (max c.x e.x), max (max a.y b.y) (max c.y e.y)⟩
  | _ => ⟨0, 0, 0, 0⟩

/-- Two rectangles overlap when some point is strictly inside both. -/
def rectsOverlap (r1 r2 : Rect) : Prop :=
  ∃ q : ℚ × ℚ,
    (r1.x1 < q.1 ∧ q.1 < r1.x2 ∧ r1.y1 < q.2 ∧ q.2 < r1.y2) ∧
    (r2.x1 < q.1 ∧ q.1 < r2.x2 ∧ r2.y1 < q.2 ∧ q.2 < r2.y2)

/-- A pixel-space point lies in the 64×64 atlas canvas. -/
def inCanvas64 (p : Vec2) : Prop :=
  0 ≤ p.x ∧ p.x ≤ 64 ∧ 0 ≤ p.y ∧ p.y ≤ 64

/-- Claim C1 as stated: for the skin convention, all six `setUVs` face
quadrilaterals mapped back to pixel space lie in the 64×64 canvas and no
two faces' pixel rectangles overlap. -/
def skinUVsClaim (u v w h d : ℚ) : Prop :=
  (∀ f ∈ setUVsFaces u v w h d 64 64, ∀ p ∈ f.map pixOf, inCanvas64 p) ∧
  List.Pairwise (fun f g => ¬ rectsOverlap (rectOfFace (f.map pixOf)) (rectOfFace (g.map pixOf)))
    (setUVsFaces u v w h d 64 64)

lemma pix_norm (a b : ℚ) : pixOf ⟨a / 64, 1 - b / 64⟩ = ⟨a, b⟩ := by
  simp only [pixOf]
  congr 1 <;> ring

lemma pix_toFace (x1 y1 x2 y2 : ℚ) :
    (toFaceVertices 64 64 x1 y1 x2 y2).map pixOf =
      [⟨x1, y2⟩, ⟨x2, y2⟩, ⟨x2, y1⟩, ⟨x1, y1⟩] := by
  simp only [toFaceVertices, List.map, pix_norm]

lemma inCanvas64_mk {a b : ℚ} (h1 : 0 ≤ a) (h2 : a ≤ 64) (h3 : 0 ≤ b) (h4 : b ≤ 64) :
    inCanvas64 ⟨a, b⟩ :=
  ⟨h1, h2, h3, h4⟩

lemma faceContained_of {x1 y1 x2 y2 : ℚ} (hx1 : 0 ≤ x1) (hx2 : x2 ≤ 64)
    (hy1 : 0 ≤ y1) (hy2 : y2 ≤ 64) (hx : x1 ≤ x2) (hy : y1 ≤ y2) :
    ∀ p ∈ (toFaceVertices 64 64 x1 y1 x2 y2).map pixOf, inCanvas64 p := by
  rw [pix_toFace]
  intro p hp
  simp only [List.mem_cons, List.not_mem_nil, or_false] at hp
  rcases hp with h | h | h | h <;> subst h <;>
    exact inCanvas64_mk (by linarith) (by linarith) (by linarith) (by linarith)

lemma rect_toFace {x1 y1 x2 y2 : ℚ} (hx : x1 ≤ x2) (hy : y1 ≤ y2) :
    rectOfFace ((toFaceVertices 64 64 x1 y1 x2 y2).map pixOf) = ⟨x1, y1, x2, y2⟩ := by
  rw [pix_toFace]
  simp only [rectOfFace]
  congr 1
  · rw [min_eq_left hx, min_eq_right hx, min_self]
  · rw [min_self, min_self, min_comm, min_eq_left hy]
  · rw [max_eq_right hx, max_eq_left hx, max_self]
  · rw [max_self, max_self, max_eq_left hy]

lemma no_overlap_x {r1 r2 : Rect} (h : r1.x2 ≤ r2.x1) : ¬ rectsOverlap r1 r2 := by
  rintro ⟨q, ⟨_, h2, _, _⟩, ⟨h3, _, _, _⟩⟩
  linarith

lemma no_overlap_y {r1 r2 : Rect} (h : r1.y2 ≤ r2.y1) : ¬ rectsOverlap r1 r2 := by
  rintro ⟨q, ⟨_, _, _, h2⟩, ⟨_, _, h3, _⟩⟩
  linarith

/-- C1, counterexample: the claim as stated quantifies over every box and
offset, but at `(u,v) = (0,0)` and `(width,height,depth) = (64,64,64)` the
back face of `setUVs` (skin convention) reaches pixel `x = u + 2*width +
2*depth = 256 > 64`, so the faces are not contained in the 64×64 canvas. -/
theorem skinUVsClaim_counterexample : ¬ skinUVsClaim 0 0 64 64 64 := by
  rintro ⟨hcont, -⟩
  have hmem : (⟨256, 128⟩ : Vec2) ∈ (backFace (0:ℚ) 0 64 64 64 64 64).map pixOf := by
    have hb : (backFace (0:ℚ) 0 64 64 64 64 64).map pixOf =
        [⟨192, 128⟩, ⟨256, 128⟩, ⟨256, 64⟩, ⟨192, 64⟩] := by
      show (toFaceVertices 64 64 (0 + 64 + 64 * 2) (0 + 64)
        (0 + 64 * 2 + 64 * 2) (0 + 64 + 64)).map pixOf = _
      rw [pix_toFace]
      norm_num
    rw [hb]
    simp
  have hin := hcont (backFace 0 0 64 64 64 64 64) (by simp [setUVsFaces]) _ hmem
  exact absurd hin.2.1 (by norm_num)

/-- C1, amended: for the skin convention (`textureWidth = textureHeight =
64`), whenever the box dimensions and atlas offset are nonnegative and the
unfolded cross fits the canvas (`u + 2*width + 2*depth ≤ 64` and
`v + depth + height ≤ 64`), the six face UV quadrilaterals of `setUVs`
mapped back to pixel space are all contained within the 64×64 atlas canvas
and no two faces' pixel rectangles overlap (strictly, in their interiors). -/
theorem setUVs_skin_contained_and_disjoint (u v w h d : ℚ)
    (hu : 0 ≤ u) (hv : 0 ≤ v) (hw : 0 ≤ w) (hh : 0 ≤ h) (hd : 0 ≤ d)
    (hfitx : u + 2 * w + 2 * d ≤ 64) (hfity : v + d + h ≤ 64) :
    skinUVsClaim u v w h d := by
  have rt : rectOfFace ((topFace u v w h d 64 64).map pixOf) =
      ⟨u + d, v, u + w + d, v + d⟩ := rect_toFace (by linarith) (by linarith)
  have rb : rectOfFace ((bottomFace u v w h d 64 64).map pixOf) =
      ⟨u + w + d, v, u + w * 2 + d, v + d⟩ := rect_toFace (by linarith) (by linarith)
  have rl : rectOfFace ((leftFace u v w h d 64 64).map pixOf) =
      ⟨u, v + d, u + d, v + d + h⟩ := rect_toFace (by linarith) (by linarith)
  have rf : rectOfFace ((frontFace u v w h d 64 64).map pixOf) =
      ⟨u + d, v + d, u + w + d, v + d + h⟩ := rect_toFace (by linarith) (by linarith)
  have rr : rectOfFace ((rightFace u v w h d 64 64).map pixOf) =
      ⟨u + w + d, v + d, u + w + d * 2, v + h + d⟩ := rect_toFace (by linarith) (by linarith)
  have rk : rectOfFace ((backFace u v w h d 64 64).map pixOf) =
      ⟨u + w + d * 2, v + d, u + w * 2 + d * 2, v + h + d⟩ :=
    rect_toFace (by linarith) (by linarith)
  constructor
  · intro f hf
    simp only [setUVsFaces, List.mem_cons, List.not_mem_nil, or_false] at hf
    rcases hf with h' | h' | h' | h' | h' | h' <;> subst h' <;>
      exact faceContained_of (by linarith) (by linarith) (by linarith) (by linarith)
        (by linarith) (by linarith)
  · show List.Pairwise _ [topFace u v w h d 64 64, bottomFace u v w h d 64 64,
      leftFace u v w h d 64 64, frontFace u v w h d 64 64,
      rightFace u v w h d 64 64, backFace u v w h d 64 64]
    refine List.Pairwise.cons ?_ (List.Pairwise.cons ?_ (List.Pairwise.cons ?_
      (List.Pairwise.cons ?_ (List.Pairwise.cons ?_ (List.Pairwise.cons ?_
        List.Pairwise.nil)))))
    · intro a ha
      simp only [List.mem_cons, List.not_mem_nil, or_false] at ha
      rcases ha with h' | h' | h' | h' | h' <;> subst h'
      · rw [rt, rb]; exact no_overlap_x (show u + w + d ≤ u + w + d by linarith)
      · rw [rt, rl]; exact no_overlap_y (show v + d ≤ v + d by linarith)
      · rw [rt, rf]; exact no_overlap_y (show v + d ≤ v + d by linarith)
      · rw [rt, rr]; exact no_overlap_y (show v + d ≤ v + d by linarith)
      · rw [rt, rk]; exact no_overlap_y (show v + d ≤ v + d by linarith)
    · intro a ha
      simp only [List.mem_cons, List.not_mem_nil, or_false] at ha
      rcases ha with h' | h' | h' | h' <;> subst h'
      · rw [rb, rl]; exact no_overlap_y (show v + d ≤ v + d by linarith)
      · rw [rb, rf]; exact no_overlap_y (show v + d ≤ v + d by linarith)
      · rw [rb, rr]; exact no_overlap_y (show v + d ≤ v + d by linarith)
      · rw [rb, rk]; exact no_overlap_y (show v + d ≤ v + d by linarith)
    · intro a ha
      simp only [List.mem_cons, List.not_mem_nil, or_false] at ha
      rcases ha with h' | h' | h' <;> subst h'
      · rw [rl, rf]; exact no_overlap_x (show u + d ≤ u + d by linarith)
      · rw [rl, rr]; exact no_overlap_x (show u + d ≤ u + w + d by linarith)
      · rw [rl, rk]; exact no_overlap_x (show u + d ≤ u + w + d * 2 by linarith)
    · intro a ha
      simp only [List.mem_cons, List.not_mem_nil, or_false] at ha
      rcases ha with h' | h' <;> subst h'
      · rw [rf, rr]; exact no_overlap_x (show u + w + d ≤ u + w + d by linarith)
      · rw [rf, rk]; exact no_overlap_x (show u + w + d ≤ u + w + d * 2 by linarith)
    · intro a ha
      simp only [List.mem_cons, List.not_mem_nil, or_false] at ha
      subst ha
      rw [rr, rk]; exact no_overlap_x (show u + w + d * 2 ≤ u + w + d * 2 by linarith)
    · intro a ha
      exact absurd ha (List.not_mem_nil a)

/-- C1, witness: the amended theorem applied at the head box of the
skeleton (`setSkinUVs(headBox, 0, 0, 8, 8, 8)`). -/
theorem setUVs_skin_contained_and_disjoint_witness : skinUVsClaim 0 0 8 8 8 :=
  setUVs_skin_contained_and_disjoint 0 0 8 8 8 (by norm_num) (by norm_num)
    (by norm_num) (by norm_num) (by norm_num) (by norm_num) (by norm_num)

/-- `rotateArray` from the JSON-model module: the returned array holds
`original[(i + shift) % length]` at position `i`. -/
def rotateArray (arr : List Vec2) (shift : ℕ) : List Vec2 :=
  (List.range arr.length).map fun i => arr.getD ((i + shift) % arr.length) ⟨0, 0⟩

/-- A declarative face: a 4-number UV rectangle plus an optional rotation
in degrees (`undefined` modelled as `none`). -/
structure JsonFace where
  uv0 : ℚ
  uv1 : ℚ
  uv2 : ℚ
  uv3 : ℚ
  faceRot : Option ℕ
deriving DecidableEq, Repr

/-- `toFaceVertices` from `setJsonUVs`: project the face's `uv` rectangle
(16 units per tile, v flipped), then cyclically rotate the 4 vertices by
`Math.floor(rotation / 90)` via `rotateArray` (`undefined` defaults to 0). -/
def toFaceVerticesJson (f : JsonFace) : List Vec2 :=
  let result : List Vec2 :=
    [⟨f.uv0 / 16, 1 - f.uv3 / 16⟩,
     ⟨f.uv2 / 16, 1 - f.uv3 / 16⟩,
     ⟨f.uv2 / 16, 1 - f.uv1 / 16⟩,
     ⟨f.uv0 / 16, 1 - f.uv1 / 16⟩]
  rotateArray result (f.faceRot.getD 0 / 90)

/-- C2: a face declared with rotation `r ∈ {0, 90, 180, 270}` yields
exactly the unrotated projection of the same uv rectangle cyclically
shifted by `⌊r / 90⌋` positions (`List.rotate`); in particular `rotation:
90` shifts the 4 UV vertices cyclically by one position. -/
theorem jsonFace_rotation_is_cyclic_shift (a b c e : ℚ) (r : ℕ)
    (hr : r = 0 ∨ r = 90 ∨ r = 180 ∨ r = 270) :
    toFaceVerticesJson ⟨a, b, c, e, some r⟩ =
      (toFaceVerticesJson ⟨a, b, c, e, none⟩).rotate (r / 90) := by
  rcases hr with h | h | h | h <;> subst h <;>
    simp [toFaceVerticesJson, rotateArray, List.rotate, List.range_succ]

/-- C2, witness: the theorem at a concrete face (`uv = [0,0,4,4]`,
`rotation: 90`): the vertex list is the unrotated one shifted by one. -/
theorem jsonFace_rotation_is_cyclic_shift_witness :
    toFaceVerticesJson ⟨0, 0, 4, 4, some 90⟩ =
      (toFaceVerticesJson ⟨0, 0, 4, 4, none⟩).rotate 1 :=
  jsonFace_rotation_is_cyclic_shift 0 0 4 4 90 (Or.inr (Or.inl rfl))

/-- A three.js `BoxGeometry(w, h, d)`: dimensions plus the accumulated
translation of the (origin-centered) geometry, as used in
`JsonModelObject.updateModel`. -/
structure BoxGeom where
  width : ℚ
  height : ℚ
  depth : ℚ
  center : Vec3
deriving DecidableEq, Repr

/-- `new BoxGeometry(w, h, d)` is centered at the origin. -/
def mkBoxGeometry (w h d : ℚ) : BoxGeom :=
  ⟨w, h, d, ⟨0, 0, 0⟩⟩

/-- `BoxGeometry.translate(tx, ty, tz)` moves the geometry (its center). -/
def translateBox (b : BoxGeom) (tx ty tz : ℚ) : BoxGeom :=
  { b with center := ⟨b.center.x + tx, b.center.y + ty, b.center.z + tz⟩ }

/-- The no-rotation geometry path of `JsonModelObject.updateModel` for one
element: `xDif = to - from` per axis, a box of the absolute differences,
translated by half the signed differences and then by the `from` corner.
The mesh's own position stays at the origin, so this is the box in
document space. -/
def interpretElementBox (f t : Vec3) : BoxGeom :=
  let xDif := t.x - f.x
  let yDif := t.y - f.y
  let zDif := t.z - f.z
  let box := mkBoxGeometry |xDif| |yDif| |zDif|
  let box := translateBox box (1/2 * xDif) (1/2 * yDif) (1/2 * zDif)
  translateBox box f.x f.y f.z

/-- C3: for every element with corners `from`/`to` and no rotation, the
interpreter produces a box whose dimensions are `|to - from|` per axis and
whose center is `from + (to - from)/2` in document space; in particular
`from = [0,0,0]`, `to = [2,2,2]` yields a 2×2×2 box centered at (1,1,1). -/
theorem interpretElementBox_dims_center (f t : Vec3) :
    (interpretElementBox f t).width = |t.x - f.x| ∧
    (interpretElementBox f t).height = |t.y - f.y| ∧
    (interpretElementBox f t).depth = |t.z - f.z| ∧
    (interpretElementBox f t).center =
      ⟨f.x + (t.x - f.x) / 2, f.y + (t.y - f.y) / 2, f.z + (t.z - f.z) / 2⟩ ∧
    interpretElementBox ⟨0, 0, 0⟩ ⟨2, 2, 2⟩ = ⟨2, 2, 2, ⟨1, 1, 1⟩⟩ := by
  refine ⟨rfl, rfl, rfl, ?_, ?_⟩
  · show (⟨(0 : ℚ) + 1/2 * (t.x - f.x) + f.x, 0 + 1/2 * (t.y - f.y) + f.y,
      0 + 1/2 * (t.z - f.z) + f.z⟩ : Vec3) = _
    congr 1 <;> ring
  · show (⟨|(2:ℚ) - 0|, |(2:ℚ) - 0|, |(2:ℚ) - 0|,
      ⟨0 + 1/2 * ((2:ℚ) - 0) + 0, 0 + 1/2 * ((2:ℚ) - 0) + 0, 0 + 1/2 * ((2:ℚ) - 0) + 0⟩⟩ : BoxGeom) = _
    norm_num

/-- A quaternion, as three.js `Quaternion`, over `ℚ`. -/
structure Quat where
  qx : ℚ
  qy : ℚ
  qz : ℚ
  qw : ℚ
deriving DecidableEq, Repr

/-- Modelled from the external dependency three.js r136 (declared in
package.json as `three: ^0.136.0`), `Quaternion.setFromAxisAngle`:
`q = (axis * sin(angle/2), cos(angle/2))`. The transcendental pair
`(sin(angle/2), cos(angle/2))` is abstracted as parameters `(s, c)`;
every angle corresponds to some `(s, c)` with `s^2 + c^2 = 1`. -/
def setFromAxisAngle (axis : Vec3) (s c : ℚ) : Quat :=
  ⟨axis.x * s, axis.y * s, axis.z * s, c⟩

/-- Modelled from three.js r136, `Vector3.applyQuaternion`: computes
`q * v` and then multiplies by the conjugate, term by term as in the
source (this is exact for unit quaternions and scales by `|q|²`
otherwise). -/
def applyQuaternion (v : Vec3) (q : Quat) : Vec3 :=
  let ix := q.qw * v.x + q.qy * v.z - q.qz * v.y
  let iy := q.qw * v.y + q.qz * v.x - q.qx * v.z
  let iz := q.qw * v.z + q.qx * v.y - q.qy * v.x
  let iw := -q.qx * v.x - q.qy * v.y - q.qz * v.z
  ⟨ix * q.qw + iw * (-q.qx) + iy * (-q.qz) - iz * (-q.qy),
   iy * q.qw + iw * (-q.qy) + iz * (-q.qx) - ix * (-q.qz),
   iz * q.qw + iw * (-q.qz) + ix * (-q.qy) - iy * (-q.qx)⟩

/-- Modelled from three.js r136, `Vector3.applyAxisAngle`. -/
def applyAxisAngle (v : Vec3) (axis : Vec3) (s c : ℚ) : Vec3 :=
  applyQuaternion v (setFromAxisAngle axis s c)

/-- Modelled from three.js r136, `Quaternion.multiplyQuaternions(a, b)`
(Hamilton product). -/
def quatMul (a b : Quat) : Quat :=
  ⟨a.qx * b.qw + a.qw * b.qx + a.qy * b.qz - a.qz * b.qy,
   a.qy * b.qw + a.qw * b.qy + a.qz * b.qx - a.qx * b.qz,
   a.qz * b.qw + a.qw * b.qz + a.qx * b.qy - a.qy * b.qx,
   a.qw * b.qw - a.qx * b.qx - a.qy * b.qy - a.qz * b.qz⟩

/-- Modelled from three.js r136, `Object3D.rotateOnAxis`: post-multiply
the object quaternion by the axis-angle quaternion. -/
def rotateOnAxis (q : Quat) (axis : Vec3) (s c : ℚ) : Quat :=
  quatMul q (setFromAxisAngle axis s c)

/-- A 3×3 rotation matrix (row major). -/
structure Mat3 where
  m00 : ℚ
  m01 : ℚ
  m02 : ℚ
  m10 : ℚ
  m11 : ℚ
  m12 : ℚ
  m20 : ℚ
  m21 : ℚ
  m22 : ℚ
deriving DecidableEq, Repr

/-- Modelled from three.js r136, the rotation part of `Matrix4.compose` /
`makeRotationFromQuaternion`: the observable orientation the renderer
derives from an object's quaternion. -/
def quatToMatrix (q : Quat) : Mat3 :=
  let x2 := q.qx + q.qx
  let y2 := q.qy + q.qy
  let z2 := q.qz + q.qz
  let xx := q.qx * x2
  let xy := q.qx * y2
  let xz := q.qx * z2
  let yy := q.qy * y2
  let yz := q.qy * z2
  let zz := q.qz * z2
  let wx := q.qw * x2
  let wy := q.qw * y2
  let wz := q.qw * z2
  ⟨1 - (yy + zz), xy - wz, xz + wy,
   xy + wz, 1 - (xx + zz), yz - wx,
   xz - wy, yz + wx, 1 - (xx + yy)⟩

/-- The axis `switch` of `JsonModelObject.updateModel`: `"x"`, `"y"`,
`"z"` resolve to unit axes, anything else to the zero vector. -/
def axisOfString (s : String) : Vec3 :=
  if s = "x" then ⟨1, 0, 0⟩
  else if s = "y" then ⟨0, 1, 0⟩
  else if s = "z" then ⟨0, 0, 1⟩
  else ⟨0, 0, 0⟩

/-- A mesh's placement state: `mesh.position` and `mesh.quaternion`. -/
structure MeshState where
  pos : Vec3
  quat : Quat
deriving DecidableEq, Repr

/-- A fresh three.js `Mesh`: position at the origin, identity
quaternion — the state an element's mesh has when the rotation block of
`JsonModelObject.updateModel` runs (the element's geometry, not the mesh,
was translated). -/
def initMesh : MeshState :=
  ⟨⟨0, 0, 0⟩, ⟨0, 0, 0, 1⟩⟩

/-- Vector subtraction, `Vector3.sub`. -/
def vsub (a b : Vec3) : Vec3 :=
  ⟨a.x - b.x, a.y - b.y, a.z - b.z⟩

/-- Vector addition, `Vector3.add`. -/
def vadd (a b : Vec3) : Vec3 :=
  ⟨a.x + b.x, a.y + b.y, a.z + b.z⟩

/-- The rotation block of `JsonModelObject.updateModel`: subtract the
pivot from the mesh position, rotate about the axis resolved from the
axis name, add the pivot back, and rotate the mesh's own orientation on
the same axis.  `(s, c)` stand for `(sin(angle/2), cos(angle/2))`. -/
def applyElementRotation (m : MeshState) (axisStr : String) (s c : ℚ)
    (pivot : Vec3) : MeshState :=
  let axis := axisOfString axisStr
  let p := vadd (applyAxisAngle (vsub m.pos pivot) axis s c) pivot
  ⟨p, rotateOnAxis m.quat axis s c⟩

/-- C4, counterexample: with the unsupported axis name `"w"`, angle such
that `(sin(angle/2), cos(angle/2)) = (4/5, 3/5)`, and pivot `(1,0,1)`,
the element's mesh ends at position `(16/25, 0, 16/25)` instead of the
no-rotation position `(0,0,0)`: the zero axis vector yields the non-unit
quaternion `(0,0,0,cos(angle/2))`, and three.js r136's `applyQuaternion`
scales the pivot-relative position by `cos²(angle/2)`, so the position is
pulled toward the pivot rather than left unchanged. -/
theorem unsupported_axis_counterexample :
    ((4:ℚ)/5)^2 + ((3:ℚ)/5)^2 = 1 ∧
    (applyElementRotation initMesh "w" (4/5) (3/5) ⟨1, 0, 1⟩).pos =
      ⟨16/25, 0, 16/25⟩ ∧
    (applyElementRotation initMesh "w" (4/5) (3/5) ⟨1, 0, 1⟩).pos ≠ initMesh.pos := by
  have ha : axisOfString "w" = ⟨0, 0, 0⟩ := by
    simp [axisOfString]
  refine ⟨by norm_num, ?_, ?_⟩ <;>
    norm_num [applyElementRotation, applyAxisAngle, setFromAxisAngle, applyQuaternion,
      ha, vsub, vadd, initMesh, Vec3.mk.injEq]

/-- C4, amended: for every element whose `rotation.axis` is a string
other than `"x"`, `"y"`, `"z"`, the axis resolves to the zero vector.
The element's rendered orientation matrix is then exactly the no-rotation
orientation, but the position is NOT in general the no-rotation position:
it becomes `sin²(angle/2) · pivot` (the pivot-relative position scaled by
`cos²(angle/2)`), which coincides with the no-rotation position `(0,0,0)`
only when `sin(angle/2) = 0` or the pivot is zero. -/
theorem unsupported_axis_behavior (axisStr : String)
    (hx : axisStr ≠ "x") (hy : axisStr ≠ "y") (hz : axisStr ≠ "z")
    (s c : ℚ) (hsc : s ^ 2 + c ^ 2 = 1) (pivot : Vec3) :
    (applyElementRotation initMesh axisStr s c pivot).pos =
      ⟨s ^ 2 * pivot.x, s ^ 2 * pivot.y, s ^ 2 * pivot.z⟩ ∧
    quatToMatrix (applyElementRotation initMesh axisStr s c pivot).quat =
      quatToMatrix initMesh.quat := by
  have ha : axisOfString axisStr = ⟨0, 0, 0⟩ := by
    simp [axisOfString, hx, hy, hz]
  constructor
  · show vadd (applyAxisAngle (vsub initMesh.pos pivot) (axisOfString axisStr) s c) pivot = _
    rw [ha]
    simp only [initMesh, vsub, vadd, applyAxisAngle, setFromAxisAngle, applyQuaternion,
      Vec3.mk.injEq]
    refine ⟨?_, ?_, ?_⟩
    · dsimp only; linear_combination (-pivot.x) * hsc
    · dsimp only; linear_combination (-pivot.y) * hsc
    · dsimp only; linear_combination (-pivot.z) * hsc
  · show quatToMatrix (rotateOnAxis initMesh.quat (axisOfString axisStr) s c) = _
    rw [ha]
    simp only [initMesh, rotateOnAxis, quatMul, setFromAxisAngle, quatToMatrix,
      Mat3.mk.injEq]
    norm_num

/-- C4, witness: the amended theorem at the unsupported axis `"w"`,
`(s, c) = (4/5, 3/5)` and pivot `(1,0,1)`. -/
theorem unsupported_axis_behavior_witness :
    (applyElementRotation initMesh "w" (4/5) (3/5) ⟨1, 0, 1⟩).pos =
      ⟨((4:ℚ)/5) ^ 2 * 1, ((4:ℚ)/5) ^ 2 * 0, ((4:ℚ)/5) ^ 2 * 1⟩ ∧
    quatToMatrix (applyElementRotation initMesh "w" (4/5) (3/5) ⟨1, 0, 1⟩).quat =
      quatToMatrix initMesh.quat :=
  unsupported_axis_behavior "w" (by decide) (by decide) (by decide)
    (4/5) (3/5) (by norm_num) ⟨1, 0, 1⟩

/-- A pixel buffer: pixel value (RGBA treated as one unit, since
`copyImage` always moves all four channel bytes of a pixel together) at
integer coordinates. -/
def Img : Type := ℕ → ℕ → ℕ

/-- One iteration of the mirror loop of `copyImage`: swap the pixels at
columns `x1` and `x2` of row `y` (both values are read before being
written, as in the source). -/
def swap2 (d : Img) (x1 x2 y : ℕ) : Img := fun a b =>
  if a = x1 ∧ b = y then d x2 y
  else if a = x2 ∧ b = y then d x1 y
  else d a b

/-- The inner `for x` loop of `copyImage`'s `flipHorizontal` branch for
row `y`: swap columns `x` and `w - 1 - x` for `x < w / 2` (JavaScript
real division, hence `⌈w / 2⌉` iterations). -/
def rowFlip (d : Img) (w y : ℕ) : Img :=
  (List.range ((w + 1) / 2)).foldl (fun acc x => swap2 acc x (w - 1 - x) y) d

/-- The full `for y` mirror loop of `copyImage`. -/
def flipData (d : Img) (w h : ℕ) : Img :=
  (List.range h).foldl (fun acc y => rowFlip acc w y) d

/-- `context.getImageData(sX, sY, w, h)`: the sub-rectangle viewed as its
own buffer with origin at `(sX, sY)`. -/
def getImageData (img : Img) (sX sY : ℕ) : Img := fun x y =>
  img (sX + x) (sY + y)

/-- `context.putImageData(data, dX, dY)` of a `w × h` block: overwrite
the destination rectangle, leave everything else. -/
def putImageData (img data : Img) (dX dY w h : ℕ) : Img := fun a b =>
  if dX ≤ a ∧ a < dX + w ∧ dY ≤ b ∧ b < dY + h then data (a - dX) (b - dY)
  else img a b

/-- `copyImage(context, sX, sY, w, h, dX, dY, flipHorizontal)` from the
skin-processing module. -/
def copyImage (img : Img) (sX sY w h dX dY : ℕ) (flipHorizontal : Bool) : Img :=
  let imgData := getImageData img sX sY
  let imgData := if flipHorizontal then flipData imgData w h else imgData
  putImageData img imgData dX dY w h

/-- `convertSkinTo1_8(skinContext, width)` with `scale = width / 64`: the
12 mirrored rectangle copies, in source order. -/
def convertSkinTo1_8 (img : Img) (scale : ℕ) : Img :=
  let cs := fun (i : Img) (sX sY w h dX dY : ℕ) (f : Bool) =>
    copyImage i (sX * scale) (sY * scale) (w * scale) (h * scale) (dX * scale) (dY * scale) f
  let i1 := cs img 4 16 4 4 20 48 true
  let i2 := cs i1 8 16 4 4 24 48 true
  let i3 := cs i2 0 20 4 12 24 52 true
  let i4 := cs i3 4 20 4 12 20 52 true
  let i5 := cs i4 8 20 4 12 16 52 true
  let i6 := cs i5 12 20 4 12 28 52 true
  let i7 := cs i6 44 16 4 4 36 48 true
  let i8 := cs i7 48 16 4 4 40 48 true
  let i9 := cs i8 40 20 4 12 40 52 true
  let i10 := cs i9 44 20 4 12 36 52 true
  let i11 := cs i10 48 20 4 12 32 52 true
  cs i11 52 20 4 12 44 52 true

lemma rowFlip_partial (d : Img) (w y : ℕ) :
    ∀ k, k ≤ (w + 1) / 2 → ∀ a b,
      (List.range k).foldl (fun acc x => swap2 acc x (w - 1 - x) y) d a b =
        if b = y ∧ a < w ∧ (a < k ∨ w - k ≤ a) then d (w - 1 - a) b else d a b := by
  intro k
  induction k with
  | zero =>
    intro _ a b
    simp only [List.range_zero, List.foldl_nil]
    rw [if_neg (by omega)]
  | succ k ih =>
    intro hk a b
    have hk' : k ≤ (w + 1) / 2 := by omega
    rw [List.range_succ, List.foldl_append, List.foldl_cons, List.foldl_nil]
    show swap2 ((List.range k).foldl (fun acc x => swap2 acc x (w - 1 - x) y) d)
      k (w - 1 - k) y a b = _
    rw [swap2]
    by_cases h1 : a = k ∧ b = y
    · rw [if_pos h1, ih hk' (w - 1 - k) y]
      rw [if_neg (by omega), if_pos (by omega)]
      obtain ⟨ha, hb⟩ := h1
      subst ha; subst hb
      have : w - 1 - a = w - 1 - a := rfl
      rfl
    · rw [if_neg h1]
      by_cases h2 : a = w - 1 - k ∧ b = y
      · rw [if_pos h2, ih hk' k y]
        rw [if_neg (by omega), if_pos (by omega)]
        obtain ⟨ha, hb⟩ := h2
        have hrw : w - 1 - a = k := by omega
        rw [hrw, hb]
      · rw [if_neg h2, ih hk' a b]
        by_cases hc : b = y ∧ a < w ∧ (a < k ∨ w - k ≤ a)
        · rw [if_pos hc, if_pos (by omega)]
        · rw [if_neg hc, if_neg (by omega)]

lemma rowFlip_eq (d : Img) (w y a b : ℕ) :
    rowFlip d w y a b = if b = y ∧ a < w then d (w - 1 - a) b else d a b := by
  rw [rowFlip, rowFlip_partial d w y ((w + 1) / 2) le_rfl a b]
  by_cases hc : b = y ∧ a < w
  · rw [if_pos (by omega), if_pos hc]
  · rw [if_neg (by omega), if_neg hc]

lemma flipData_eq (d : Img) (w : ℕ) : ∀ h a b,
    flipData d w h a b = if b < h ∧ a < w then d (w - 1 - a) b else d a b := by
  intro h
  induction h with
  | zero =>
    intro a b
    show d a b = _
    rw [if_neg (by omega)]
  | succ h ih =>
    intro a b
    have hstep : flipData d w (h + 1) a b = rowFlip (flipData d w h) w h a b := by
      rw [flipData, List.range_succ, List.foldl_append, List.foldl_cons, List.foldl_nil]
      rfl
    rw [hstep, rowFlip_eq]
    by_cases hby : b = h ∧ a < w
    · rw [if_pos hby, ih (w - 1 - a) b, if_neg (by omega), if_pos (by omega)]
    · rw [if_neg hby, ih a b]
      by_cases hc : b < h ∧ a < w
      · rw [if_pos hc, if_pos (by omega)]
      · rw [if_neg hc, if_neg (by omega)]

lemma copyImage_in (img : Img) (sX sY w h dX dY x y : ℕ)
    (h1 : dX ≤ x) (h2 : x < dX + w) (h3 : dY ≤ y) (h4 : y < dY + h) :
    copyImage img sX sY w h dX dY true x y =
      img (sX + (w - 1 - (x - dX))) (sY + (y - dY)) := by
  show putImageData img (flipData (getImageData img sX sY) w h) dX dY w h x y = _
  show (if dX ≤ x ∧ x < dX + w ∧ dY ≤ y ∧ y < dY + h
    then flipData (getImageData img sX sY) w h (x - dX) (y - dY) else img x y) = _
  rw [if_pos ⟨h1, h2, h3, h4⟩, flipData_eq, if_pos (by omega)]
  rfl

lemma copyImage_out (img : Img) (sX sY w h dX dY : ℕ) (f : Bool) (x y : ℕ)
    (hout : ¬(dX ≤ x ∧ x < dX + w ∧ dY ≤ y ∧ y < dY + h)) :
    copyImage img sX sY w h dX dY f x y = img x y := by
  cases f <;> exact if_neg hout

/-- C5: for a width-64 buffer (scale 1), the legacy upgrade writes into
each of the 12 destination rectangles exactly the horizontally mirrored
pixels of its source rectangle (read from the original buffer), and every
pixel outside the 12 destination rectangles is unchanged. -/
theorem convertSkinTo1_8_spec (img : Img) (x y : ℕ) :
    ((20 ≤ x ∧ x < 24 ∧ 48 ≤ y ∧ y < 52) →
      convertSkinTo1_8 img 1 x y = img (4 + (4 - 1 - (x - 20))) (16 + (y - 48))) ∧
    ((24 ≤ x ∧ x < 28 ∧ 48 ≤ y ∧ y < 52) →
      convertSkinTo1_8 img 1 x y = img (8 + (4 - 1 - (x - 24))) (16 + (y - 48))) ∧
    ((24 ≤ x ∧ x < 28 ∧ 52 ≤ y ∧ y < 64) →
      convertSkinTo1_8 img 1 x y = img (0 + (4 - 1 - (x - 24))) (20 + (y - 52))) ∧
    ((20 ≤ x ∧ x < 24 ∧ 52 ≤ y ∧ y < 64) →
      convertSkinTo1_8 img 1 x y = img (4 + (4 - 1 - (x - 20))) (20 + (y - 52))) ∧
    ((16 ≤ x ∧ x < 20 ∧ 52 ≤ y ∧ y < 64) →
      convertSkinTo1_8 img 1 x y = img (8 + (4 - 1 - (x - 16))) (20 + (y - 52))) ∧
    ((28 ≤ x ∧ x < 32 ∧ 52 ≤ y ∧ y < 64) →
      convertSkinTo1_8 img 1 x y = img (12 + (4 - 1 - (x - 28))) (20 + (y - 52))) ∧
    ((36 ≤ x ∧ x < 40 ∧ 48 ≤ y ∧ y < 52) →
      convertSkinTo1_8 img 1 x y = img (44 + (4 - 1 - (x - 36))) (16 + (y - 48))) ∧
    ((40 ≤ x ∧ x < 44 ∧ 48 ≤ y ∧ y < 52) →
      convertSkinTo1_8 img 1 x y = img (48 + (4 - 1 - (x - 40))) (16 + (y - 48))) ∧
    ((40 ≤ x ∧ x < 44 ∧ 52 ≤ y ∧ y < 64) →
      convertSkinTo1_8 img 1 x y = img (40 + (4 - 1 - (x - 40))) (20 + (y - 52))) ∧
    ((36 ≤ x ∧ x < 40 ∧ 52 ≤ y ∧ y < 64) →
      convertSkinTo1_8 img 1 x y = img (44 + (4 - 1 - (x - 36))) (20 + (y - 52))) ∧
    ((32 ≤ x ∧ x < 36 ∧ 52 ≤ y ∧ y < 64) →
      convertSkinTo1_8 img 1 x y = img (48 + (4 - 1 - (x - 32))) (20 + (y - 52))) ∧
    ((44 ≤ x ∧ x < 48 ∧ 52 ≤ y ∧ y < 64) →
      convertSkinTo1_8 img 1 x y = img (52 + (4 - 1 - (x - 44))) (20 + (y - 52))) ∧
    ((¬(20 ≤ x ∧ x < 24 ∧ 48 ≤ y ∧ y < 52) ∧ ¬(24 ≤ x ∧ x < 28 ∧ 48 ≤ y ∧ y < 52) ∧
      ¬(24 ≤ x ∧ x < 28 ∧ 52 ≤ y ∧ y < 64) ∧ ¬(20 ≤ x ∧ x < 24 ∧ 52 ≤ y ∧ y < 64) ∧
      ¬(16 ≤ x ∧ x < 20 ∧ 52 ≤ y ∧ y < 64) ∧ ¬(28 ≤ x ∧ x < 32 ∧ 52 ≤ y ∧ y < 64) ∧
      ¬(36 ≤ x ∧ x < 40 ∧ 48 ≤ y ∧ y < 52) ∧ ¬(40 ≤ x ∧ x < 44 ∧ 48 ≤ y ∧ y < 52) ∧
      ¬(40 ≤ x ∧ x < 44 ∧ 52 ≤ y ∧ y < 64) ∧ ¬(36 ≤ x ∧ x < 40 ∧ 52 ≤ y ∧ y < 64) ∧
      ¬(32 ≤ x ∧ x < 36 ∧ 52 ≤ y ∧ y < 64) ∧ ¬(44 ≤ x ∧ x < 48 ∧ 52 ≤ y ∧ y < 64)) →
      convertSkinTo1_8 img 1 x y = img x y) := by
  refine ⟨?_, ?_, ?_, ?_, ?_, ?_, ?_, ?_, ?_, ?_, ?_, ?_, ?_⟩ <;>
  · intro hin
    simp only [convertSkinTo1_8]
    simp (disch := omega) only [copyImage_in, copyImage_out, Nat.mul_one]

/-- C5, witness: the theorem applied to the buffer whose pixel value
encodes its own coordinates, at a destination pixel (the first leg-top
rule maps (20,48) to the mirrored source pixel (7,16)) and at an
untouched pixel. -/
theorem convertSkinTo1_8_spec_witness :
    convertSkinTo1_8 (fun a b => 64 * b + a) 1 20 48 = 64 * 16 + 7 ∧
    convertSkinTo1_8 (fun a b => 64 * b + a) 1 0 0 = 0 := by
  constructor
  · rw [(convertSkinTo1_8_spec (fun a b => 64 * b + a) 20 48).1 (by omega)]
  · rw [(convertSkinTo1_8_spec (fun a b => 64 * b + a) 0 0).2.2.2.2.2.2.2.2.2.2.2.2 (by omega)]

/-- `hasTransparency(context, x0, y0, w, h)` from the skin-processing
module: does some pixel of the rectangle have an alpha value other than
0xff? (The buffer is modelled by its alpha channel.) -/
def hasTransparency (img : Img) (x0 y0 w h : ℕ) : Bool :=
  (List.range w).any fun x => (List.range h).any fun y => img (x0 + x) (y0 + y) != 0xff

/-- `isSlimSkin(skinContext, width)` with `scale = width / 64`: check the
four probe regions of the right- and left-arm areas. -/
def isSlimSkin (img : Img) (scale : ℕ) : Bool :=
  hasTransparency img (50 * scale) (16 * scale) (2 * scale) (4 * scale) ||
  hasTransparency img (54 * scale) (20 * scale) (2 * scale) (12 * scale) ||
  hasTransparency img (42 * scale) (48 * scale) (2 * scale) (4 * scale) ||
  hasTransparency img (46 * scale) (52 * scale) (2 * scale) (12 * scale)

lemma hasTransparency_iff (img : Img) (x0 y0 w h : ℕ) :
    hasTransparency img x0 y0 w h = true ↔
      ∃ i < w, ∃ j < h, img (x0 + i) (y0 + j) ≠ 0xff := by
  simp [hasTransparency, List.any_eq_true, List.mem_range]

/-- C6: the slim detector returns slim exactly when one of the four probe
regions (base rectangles (50,16,2,4), (54,20,2,12), (42,48,2,4),
(46,52,2,12), all scaled by `width/64`) contains a pixel whose alpha is
not 0xff; a buffer with all four probe regions fully opaque classifies as
classic. -/
theorem isSlimSkin_iff (img : Img) (scale : ℕ) :
    (isSlimSkin img scale = true ↔
      ((∃ i < 2 * scale, ∃ j < 4 * scale, img (50 * scale + i) (16 * scale + j) ≠ 0xff) ∨
       (∃ i < 2 * scale, ∃ j < 12 * scale, img (54 * scale + i) (20 * scale + j) ≠ 0xff) ∨
       (∃ i < 2 * scale, ∃ j < 4 * scale, img (42 * scale + i) (48 * scale + j) ≠ 0xff) ∨
       (∃ i < 2 * scale, ∃ j < 12 * scale, img (46 * scale + i) (52 * scale + j) ≠ 0xff))) ∧
    ((∀ i < 2 * scale, ∀ j < 4 * scale, img (50 * scale + i) (16 * scale + j) = 0xff) →
     (∀ i < 2 * scale, ∀ j < 12 * scale, img (54 * scale + i) (20 * scale + j) = 0xff) →
     (∀ i < 2 * scale, ∀ j < 4 * scale, img (42 * scale + i) (48 * scale + j) = 0xff) →
     (∀ i < 2 * scale, ∀ j < 12 * scale, img (46 * scale + i) (52 * scale + j) = 0xff) →
     isSlimSkin img scale = false) := by
  have hiff : isSlimSkin img scale = true ↔
      ((∃ i < 2 * scale, ∃ j < 4 * scale, img (50 * scale + i) (16 * scale + j) ≠ 0xff) ∨
       (∃ i < 2 * scale, ∃ j < 12 * scale, img (54 * scale + i) (20 * scale + j) ≠ 0xff) ∨
       (∃ i < 2 * scale, ∃ j < 4 * scale, img (42 * scale + i) (48 * scale + j) ≠ 0xff) ∨
       (∃ i < 2 * scale, ∃ j < 12 * scale, img (46 * scale + i) (52 * scale + j) ≠ 0xff)) := by
    simp only [isSlimSkin, Bool.or_eq_true, hasTransparency_iff]
    rw [or_assoc, or_assoc]
  refine ⟨hiff, ?_⟩
  intro h1 h2 h3 h4
  rw [Bool.eq_false_iff]
  intro htrue
  rcases hiff.mp htrue with ⟨i, hi, j, hj, hne⟩ | ⟨i, hi, j, hj, hne⟩ |
    ⟨i, hi, j, hj, hne⟩ | ⟨i, hi, j, hj, hne⟩
  · exact hne (h1 i hi j hj)
  · exact hne (h2 i hi j hj)
  · exact hne (h3 i hi j hj)
  · exact hne (h4 i hi j hj)

/-- C6, witness: the theorem at scale 1 on the all-opaque buffer — it
classifies as classic (`isSlimSkin = false`). -/
theorem isSlimSkin_iff_witness : isSlimSkin (fun _ _ => 0xff) 1 = false :=
  (isSlimSkin_iff (fun _ _ => 0xff) 1).2
    (fun _ _ _ _ => rfl) (fun _ _ _ _ => rfl) (fun _ _ _ _ => rfl) (fun _ _ _ _ => rfl)

/-- An `Object3D` placement: `position` and Euler `rotation` triplet. -/
structure Transform3 where
  position : Vec3
  rotation : Vec3
deriving DecidableEq, Repr

/-- The two wing pivot groups of `ElytraObject`. -/
structure ElytraState where
  leftWing : Transform3
  rightWing : Transform3
deriving DecidableEq, Repr

/-- `ElytraObject.updateRightWing`: mirror the left wing's pose onto the
right wing (x position negated, y position copied, x rotation copied, y
and z rotations negated; the right wing's z position is not touched). -/
def updateRightWing (e : ElytraState) : ElytraState :=
  { e with rightWing :=
    { position := ⟨-e.leftWing.position.x, e.leftWing.position.y, e.rightWing.position.z⟩,
      rotation := ⟨e.leftWing.rotation.x, -e.leftWing.rotation.y, -e.leftWing.rotation.z⟩ } }

/-- C7: for every left-wing pose `(px, py, rx, ry, rz)`, `updateRightWing`
sets the right wing's pose to exactly `(-px, py, rx, -ry, -rz)`. -/
theorem updateRightWing_mirror (e : ElytraState) :
    (updateRightWing e).rightWing.position.x = -e.leftWing.position.x ∧
    (updateRightWing e).rightWing.position.y = e.leftWing.position.y ∧
    (updateRightWing e).rightWing.rotation.x = e.leftWing.rotation.x ∧
    (updateRightWing e).rightWing.rotation.y = -e.leftWing.rotation.y ∧
    (updateRightWing e).rightWing.rotation.z = -e.leftWing.rotation.z :=
  ⟨rfl, rfl, rfl, rfl, rfl⟩

/-- The variant-dependent arm state of `SkinObject`: everything the six
`modelListeners` write (both arms' both layers' mesh scale and box UVs,
and both arm pivots' x offset), plus the `slim` flag. -/
structure SkinGeomState where
  slim : Bool
  rightArmScale : Vec3
  rightArmUV : List Vec2
  rightArm2Scale : Vec3
  rightArm2UV : List Vec2
  rightArmPivotX : ℚ
  leftArmScale : Vec3
  leftArmUV : List Vec2
  leftArm2Scale : Vec3
  leftArm2UV : List Vec2
  leftArmPivotX : ℚ
deriving DecidableEq, Repr

/-- Listener 1: right arm inner layer (scale and `setSkinUVs(40, 16, ...)`). -/
def listenerRightArm (st : SkinGeomState) : SkinGeomState :=
  { st with
    rightArmScale := ⟨if st.slim then 3 else 4, 12, 4⟩,
    rightArmUV := setSkinUVsList 40 16 (if st.slim then 3 else 4) 12 4 }

/-- Listener 2: right arm outer layer (scale and `setSkinUVs(40, 32, ...)`). -/
def listenerRightArm2 (st : SkinGeomState) : SkinGeomState :=
  { st with
    rightArm2Scale := ⟨if st.slim then 3.5 else 4.5, 12.5, 4.5⟩,
    rightArm2UV := setSkinUVsList 40 32 (if st.slim then 3 else 4) 12 4 }

/-- Listener 3: right arm pivot x offset. -/
def listenerRightArmPivot (st : SkinGeomState) : SkinGeomState :=
  { st with rightArmPivotX := if st.slim then -0.5 else -1 }

/-- Listener 4: left arm inner layer (scale and `setSkinUVs(32, 48, ...)`). -/
def listenerLeftArm (st : SkinGeomState) : SkinGeomState :=
  { st with
    leftArmScale := ⟨if st.slim then 3 else 4, 12, 4⟩,
    leftArmUV := setSkinUVsList 32 48 (if st.slim then 3 else 4) 12 4 }

/-- Listener 5: left arm outer layer (scale and `setSkinUVs(48, 48, ...)`). -/
def listenerLeftArm2 (st : SkinGeomState) : SkinGeomState :=
  { st with
    leftArm2Scale := ⟨if st.slim then 3.5 else 4.5, 12.5, 4.5⟩,
    leftArm2UV := setSkinUVsList 48 48 (if st.slim then 3 else 4) 12 4 }

/-- Listener 6: left arm pivot x offset. -/
def listenerLeftArmPivot (st : SkinGeomState) : SkinGeomState :=
  { st with leftArmPivotX := if st.slim then 0.5 else 1 }

/-- The `modelType` setter of `SkinObject`: set `slim = (value ===
"slim")`, then run the six model listeners in registration order. -/
def setModelType (value : String) (st : SkinGeomState) : SkinGeomState :=
  let st := { st with slim := value == "slim" }
  listenerLeftArmPivot (listenerLeftArm2 (listenerLeftArm
    (listenerRightArmPivot (listenerRightArm2 (listenerRightArm st)))))

/-- C8: for `v ∈ {"slim", "default"}` and every starting skeleton state,
setting `modelType` to `v` twice produces exactly the same arm geometry
state (scales, UV placement, pivot x offsets, and the flag) as setting it
once. -/
theorem setModelType_idempotent (v : String)
    (hv : v = "slim" ∨ v = "default") (st : SkinGeomState) :
    setModelType v (setModelType v st) = setModelType v st := by
  rcases hv with h | h <;> subst h <;> rfl

/-- C8, witness: the idempotence theorem at `v = "slim"` on a zeroed
starting state. -/
theorem setModelType_idempotent_witness :
    setModelType "slim" (setModelType "slim"
      ⟨false, ⟨0, 0, 0⟩, [], ⟨0, 0, 0⟩, [], 0, ⟨0, 0, 0⟩, [], ⟨0, 0, 0⟩, [], 0⟩) =
    setModelType "slim"
      ⟨false, ⟨0, 0, 0⟩, [], ⟨0, 0, 0⟩, [], 0, ⟨0, 0, 0⟩, [], ⟨0, 0, 0⟩, [], 0⟩ :=
  setModelType_idempotent "slim" (Or.inl rfl)
    ⟨false, ⟨0, 0, 0⟩, [], ⟨0, 0, 0⟩, [], 0, ⟨0, 0, 0⟩, [], ⟨0, 0, 0⟩, [], 0⟩

/-- The nine optional hat slots of `PlayerObject` (a mounted instance is
abstracted to the index of the canvas model it was built from). -/
structure PlayerHats where
  hat1 : Option ℕ
  hat2 : Option ℕ
  hat3 : Option ℕ
  hat4 : Option ℕ
  hat5 : Option ℕ
  hat6 : Option ℕ
  hat7 : Option ℕ
  hat8 : Option ℕ
  hat9 : Option ℕ
deriving DecidableEq, Repr

/-- The hat-mounting sequence of the `PlayerObject` constructor: all nine
slots start null, then one guarded block per entry of `hatCanvases`. The
block for `hatCanvases[8]` assigns `this.hat8` (not `hat9`), exactly as
in the source. -/
def mountHats (c : Fin 9 → Option ℕ) : PlayerHats :=
  let s : PlayerHats := ⟨none, none, none, none, none, none, none, none, none⟩
  let s := if (c 0).isSome then { s with hat1 := c 0 } else s
  let s := if (c 1).isSome then { s with hat2 := c 1 } else s
  let s := if (c 2).isSome then { s with hat3 := c 2 } else s
  let s := if (c 3).isSome then { s with hat4 := c 3 } else s
  let s := if (c 4).isSome then { s with hat5 := c 4 } else s
  let s := if (c 5).isSome then { s with hat6 := c 5 } else s
  let s := if (c 6).isSome then { s with hat7 := c 6 } else s
  let s := if (c 7).isSome then { s with hat8 := c 7 } else s
  let s := if (c 8).isSome then { s with hat8 := c 8 } else s
  s

/-- C9, failing-input evaluation: with all nine `hatCanvases` entries
non-null, entries 0–7 land in `hat1`–`hat8` as the claim says, but entry
8 is mounted into `hat8` again (overwriting entry 7's instance) and
`hat9` stays null — the constructor never assigns `hat9`. -/
theorem mountHats_index8_bug :
    (mountHats (fun i => some i.val)).hat1 = some 0 ∧
    (mountHats (fun i => some i.val)).hat2 = some 1 ∧
    (mountHats (fun i => some i.val)).hat3 = some 2 ∧
    (mountHats (fun i => some i.val)).hat4 = some 3 ∧
    (mountHats (fun i => some i.val)).hat5 = some 4 ∧
    (mountHats (fun i => some i.val)).hat6 = some 5 ∧
    (mountHats (fun i => some i.val)).hat7 = some 6 ∧
    (mountHats (fun i => some i.val)).hat8 = some 8 ∧
    (mountHats (fun i => some i.val)).hat9 = none := by
  decide

/-- `BackEquipment` from src/model.ts. -/
inductive BackEquipment where
  | cape
  | elytra
deriving DecidableEq, Repr

/-- The visibility flags of the cape and elytra objects. -/
structure BackVisibility where
  capeVisible : Bool
  elytraVisible : Bool
deriving DecidableEq, Repr

/-- The `backEquipment` setter of `PlayerObject`: `cape.visible = (value
=== "cape")`, `elytra.visible = (value === "elytra")`. -/
def setBackEquipment (value : Option BackEquipment) (_s : BackVisibility) : BackVisibility :=
  ⟨decide (value = some BackEquipment.cape), decide (value = some BackEquipment.elytra)⟩

/-- The `backEquipment` getter of `PlayerObject`. -/
def getBackEquipment (s : BackVisibility) : Option BackEquipment :=
  if s.capeVisible then some BackEquipment.cape
  else if s.elytraVisible then some BackEquipment.elytra
  else none

/-- C10: for every `v ∈ {"cape", "elytra", null}` and every prior
visibility state, assigning `backEquipment = v` and reading it back
returns exactly `v`; after the assignment the cape and the elytra are
never both visible, the cape is visible iff `v = "cape"`, and the elytra
is visible iff `v = "elytra"`. -/
theorem backEquipment_roundtrip (s : BackVisibility) (v : Option BackEquipment) :
    getBackEquipment (setBackEquipment v s) = v ∧
    ¬((setBackEquipment v s).capeVisible = true ∧ (setBackEquipment v s).elytraVisible = true) ∧
    ((setBackEquipment v s).capeVisible = true ↔ v = some BackEquipment.cape) ∧
    ((setBackEquipment v s).elytraVisible = true ↔ v = some BackEquipment.elytra) := by
  rcases v with _ | c
  · simp [setBackEquipment, getBackEquipment]
  · cases c <;> simp [setBackEquipment, getBackEquipment]
